import Mathlib

/-!
Verification development for the ynab-mcp-server repository.

The Python sources are shallowly embedded: pydantic models become Lean
structures, the `YNABService` HTTP client becomes a pure function over an
explicit upstream oracle (`World`) that also returns the list of API requests
it issued (the effect trace), and the `get_transactions` / `update_transaction`
tool bodies from `app/tools.py` become pure functions over that service layer.
Python floats produced by the `/ 1000.0` formatting accessors are modelled as
rationals (the division by 1000 is the only float operation involved).
Python exceptions are modelled by an inductive type together with the
class-hierarchy predicates the `except` clauses of the source rely on.
-/

namespace YnabMCP

/-! ## Typed record layer (app/models/transaction.py, app/models/account.py) -/

/-- `TransactionClearedStatus` enum from app/models/transaction.py. -/
inductive TransactionClearedStatus where
  | cleared
  | uncleared
  | reconciled
deriving DecidableEq

/-- `TransactionFlagColor` enum from app/models/transaction.py. -/
inductive TransactionFlagColor where
  | red
  | orange
  | yellow
  | green
  | blue
  | purple
deriving DecidableEq

/-- `SubTransaction` model from app/models/transaction.py.  Monetary amounts
are integers in milliunits, exactly as in the source. -/
structure SubTransaction where
  id : String
  transaction_id : String
  amount : Int
  memo : Option String
  payee_id : Option String
  payee_name : Option String
  category_id : Option String
  category_name : Option String
  transfer_account_id : Option String
  transfer_transaction_id : Option String
  deleted : Bool
deriving DecidableEq

/-- `Transaction` model from app/models/transaction.py. -/
structure Transaction where
  id : String
  date : String
  amount : Int
  memo : Option String
  cleared : TransactionClearedStatus
  approved : Bool
  flag_color : Option TransactionFlagColor
  flag_name : Option String
  account_id : String
  payee_id : Option String
  category_id : Option String
  transfer_account_id : Option String
  transfer_transaction_id : Option String
  matched_transaction_id : Option String
  import_id : Option String
  import_payee_name : Option String
  import_payee_name_original : Option String
  deleted : Bool
deriving DecidableEq

/-- `TransactionDetail` model from app/models/transaction.py (extends
`Transaction` with the detail fields). -/
structure TransactionDetail extends Transaction where
  account_name : String
  payee_name : Option String
  category_name : Option String
  subtransactions : List SubTransaction
deriving DecidableEq

/-- `AccountType` enum from app/models/account.py. -/
inductive AccountType where
  | checking
  | savings
  | cash
  | creditCard
  | lineOfCredit
  | otherAsset
  | otherLiability
  | mortgage
  | autoLoan
  | studentLoan
  | personalLoan
  | medicalDebt
  | otherDebt
deriving DecidableEq

/-- `Account` model from app/models/account.py. -/
structure Account where
  id : String
  name : String
  type : AccountType
  on_budget : Bool
  closed : Bool
  note : Option String
  balance : Int
  cleared_balance : Int
  uncleared_balance : Int
  transfer_payee_id : Option String
  direct_import_linked : Option Bool
  direct_import_in_error : Option Bool
  last_reconciled_at : Option String
  deleted : Bool
deriving DecidableEq

/-- `Transaction.amount_formatted` computed field: `self.amount / 1000.0`.
The float value is modelled as a rational; it is a function of the record
(recomputed on access), never a stored field. -/
def Transaction.amount_formatted (t : Transaction) : ℚ :=
  (t.amount : ℚ) / 1000

/-- `SubTransaction.amount_formatted` computed field: `self.amount / 1000.0`. -/
def SubTransaction.amount_formatted (st : SubTransaction) : ℚ :=
  (st.amount : ℚ) / 1000

/-- `Account.balance_formatted` computed field: `self.balance / 1000.0`. -/
def Account.balance_formatted (a : Account) : ℚ :=
  (a.balance : ℚ) / 1000

/-- `Account.cleared_balance_formatted` computed field. -/
def Account.cleared_balance_formatted (a : Account) : ℚ :=
  (a.cleared_balance : ℚ) / 1000

/-- `Account.uncleared_balance_formatted` computed field. -/
def Account.uncleared_balance_formatted (a : Account) : ℚ :=
  (a.uncleared_balance : ℚ) / 1000

/-- `GoalType` enum from app/models/category.py. -/
inductive GoalType where
  | TB
  | TBD
  | MF
  | NEED
  | DEBT
deriving DecidableEq

/-- `Category` model from app/models/category.py. -/
structure Category where
  id : String
  category_group_id : String
  category_group_name : Option String
  name : String
  hidden : Bool
  note : Option String
  budgeted : Int
  activity : Int
  balance : Int
  goal_type : Option GoalType
  goal_needs_whole_amount : Option Bool
  goal_day : Option Int
  goal_cadence : Option Int
  goal_cadence_frequency : Option Int
  goal_creation_month : Option String
  goal_target : Option Int
  goal_target_month : Option String
  goal_percentage_complete : Option Int
  goal_months_to_budget : Option Int
  goal_under_funded : Option Int
  goal_overall_funded : Option Int
  goal_overall_left : Option Int
  deleted : Bool
deriving DecidableEq

/-- `Category.budgeted_formatted` computed field: `self.budgeted / 1000.0`. -/
def Category.budgeted_formatted (c : Category) : ℚ :=
  (c.budgeted : ℚ) / 1000

/-- `Category.activity_formatted` computed field: `self.activity / 1000.0`. -/
def Category.activity_formatted (c : Category) : ℚ :=
  (c.activity : ℚ) / 1000

/-- `Category.balance_formatted` computed field: `self.balance / 1000.0`. -/
def Category.balance_formatted (c : Category) : ℚ :=
  (c.balance : ℚ) / 1000

/-- `Category.goal_target_formatted` computed field:
`self.goal_target / 1000.0 if self.goal_target is not None else None`. -/
def Category.goal_target_formatted (c : Category) : Option ℚ :=
  match c.goal_target with
  | some v => some ((v : ℚ) / 1000)
  | none => none

/-- `Category.goal_under_funded_formatted` computed field. -/
def Category.goal_under_funded_formatted (c : Category) : Option ℚ :=
  match c.goal_under_funded with
  | some v => some ((v : ℚ) / 1000)
  | none => none

/-- `Category.goal_overall_funded_formatted` computed field. -/
def Category.goal_overall_funded_formatted (c : Category) : Option ℚ :=
  match c.goal_overall_funded with
  | some v => some ((v : ℚ) / 1000)
  | none => none

/-- `Category.goal_overall_left_formatted` computed field. -/
def Category.goal_overall_left_formatted (c : Category) : Option ℚ :=
  match c.goal_overall_left with
  | some v => some ((v : ℚ) / 1000)
  | none => none

/-! ## Memo emptiness (app/tools.py `_is_memo_empty`) -/

/-- Characters removed by `str.strip()` (ASCII whitespace; Python also strips
Unicode space characters, which do not occur in this development). -/
def isPySpace (c : Char) : Bool :=
  c = ' ' || c = '\t' || c = '\n' || c = '\r' || c = '\x0b' || c = '\x0c'

/-- Drop leading characters satisfying `isPySpace`. -/
def dropLeadingWs : List Char → List Char
  | [] => []
  | c :: cs => if isPySpace c then dropLeadingWs cs else c :: cs

/-- Python `str.strip()`: remove leading and trailing whitespace. -/
def pyStrip (s : String) : String :=
  String.mk ((dropLeadingWs (dropLeadingWs s.data).reverse).reverse)

/-- `_is_memo_empty(memo)` from app/tools.py:
`memo is None or memo.strip() == ""`. -/
def isMemoEmpty : Option String → Bool
  | none => true
  | some m => pyStrip m == ""

/-! ## Date validation (app/services/__init__.py `_validate_date_format`)

`datetime.strptime(date_str, "%Y-%m-%d")` accepts: a 4-digit year (value at
least 1, since `datetime` rejects year 0), a 1- or 2-digit month in 1..12, a
1- or 2-digit day in 1..31 which must exist in the given month/year, with
nothing before, between or after the three dash-separated fields.  Digits are
modelled as ASCII digits. -/

/-- Split a character list at every dash, keeping empty segments. -/
def splitOnDash : List Char → List Char → List (List Char)
  | [], acc => [acc.reverse]
  | c :: cs, acc =>
    if c = '-' then acc.reverse :: splitOnDash cs []
    else splitOnDash cs (c :: acc)

/-- Decimal value of a digit list. -/
def digitsToNat (cs : List Char) : Nat :=
  cs.foldl (fun a c => a * 10 + (c.toNat - 48)) 0

/-- The `%Y` directive: exactly four digits; `datetime` then requires the
year to be at least 1. -/
def yearFieldOk (cs : List Char) : Bool :=
  cs.length = 4 && cs.all Char.isDigit && 1 ≤ digitsToNat cs

/-- The `%m` directive: one or two digits with value 1..12. -/
def monthFieldOk (cs : List Char) : Bool :=
  (cs.length = 1 || cs.length = 2) && cs.all Char.isDigit &&
    1 ≤ digitsToNat cs && digitsToNat cs ≤ 12

/-- The `%d` directive: one or two digits with value 1..31. -/
def dayFieldOk (cs : List Char) : Bool :=
  (cs.length = 1 || cs.length = 2) && cs.all Char.isDigit &&
    1 ≤ digitsToNat cs && digitsToNat cs ≤ 31

/-- Gregorian leap-year rule used by `datetime`. -/
def isLeapYear (y : Nat) : Bool :=
  y % 4 = 0 && (y % 100 ≠ 0 || y % 400 = 0)

/-- Number of days in a month, as enforced by the `datetime` constructor. -/
def daysInMonth (y m : Nat) : Nat :=
  if m = 2 then (if isLeapYear y then 29 else 28)
  else if m = 4 || m = 6 || m = 9 || m = 11 then 30
  else 31

/-- Acceptance predicate of
`datetime.strptime(date_str, "%Y-%m-%d")` (app/services/__init__.py,
`_validate_date_format`): returns `true` exactly when no `ValueError` is
raised. -/
def isValidYnabDate (s : String) : Bool :=
  match splitOnDash s.data [] with
  | [y, m, d] =>
    yearFieldOk y && monthFieldOk m && dayFieldOk d &&
      digitsToNat d ≤ daysInMonth (digitsToNat y) (digitsToNat m)
  | _ => false

/-- Python truthiness of an optional string (`if account_id:` and similar
guards in the source treat `None` and `""` alike). -/
def truthyStr : Option String → Bool
  | none => false
  | some s => s ≠ ""

/-! ## JSON values and `json.loads` (used by the payee-id coercion in
app/tools.py and by the response-body handling in app/auth/simple_ynab.py)

`PyVal` is the set of values `json.loads` can produce.  Numbers keep their
source text (no arithmetic is ever performed on them); the parser follows the
strict RFC-8259 grammar that Python's `json` module implements, plus the
`NaN`/`Infinity`/`-Infinity` constants that module additionally accepts. -/

inductive PyVal where
  | null
  | bool (b : Bool)
  | num (raw : String)
  | str (s : String)
  | arr (elems : List PyVal)
  | obj (entries : List (String × PyVal))

/-- JSON insignificant whitespace. -/
def skipWsJson : List Char → List Char
  | [] => []
  | c :: cs =>
    if c = ' ' || c = '\t' || c = '\n' || c = '\r' then skipWsJson cs else c :: cs

/-- Hexadecimal digit value. -/
def hexVal (c : Char) : Option Nat :=
  if '0' ≤ c && c ≤ '9' then some (c.toNat - 48)
  else if 'a' ≤ c && c ≤ 'f' then some (c.toNat - 87)
  else if 'A' ≤ c && c ≤ 'F' then some (c.toNat - 55)
  else none

/-- Single-character JSON string escapes. -/
def escChar (c : Char) : Option Char :=
  if c = '"' then some '"'
  else if c = '\\' then some '\\'
  else if c = '/' then some '/'
  else if c = 'b' then some '\x08'
  else if c = 'f' then some '\x0c'
  else if c = 'n' then some '\n'
  else if c = 'r' then some '\r'
  else if c = 't' then some '\t'
  else none

/-- Parse the body of a JSON string after the opening quote; returns the
decoded characters and the remainder after the closing quote.  Control
characters are rejected, as in Python's strict mode.  (Surrogate pairing of
`\u` escapes is not modelled; no claim depends on it.) -/
def parseJsonStr : Nat → List Char → Option (List Char × List Char)
  | 0, _ => none
  | fuel + 1, cs =>
    match cs with
    | [] => none
    | '"' :: rest => some ([], rest)
    | '\\' :: rest =>
      match rest with
      | [] => none
      | e :: rest2 =>
        if e = 'u' then
          match rest2 with
          | a :: b :: c :: d :: rest3 =>
            match hexVal a, hexVal b, hexVal c, hexVal d with
            | some ha, some hb, some hc, some hd =>
              (parseJsonStr fuel rest3).map
                (fun p => (Char.ofNat (((ha * 16 + hb) * 16 + hc) * 16 + hd) :: p.1, p.2))
            | _, _, _, _ => none
          | _ => none
        else
          match escChar e with
          | some c2 => (parseJsonStr fuel rest2).map (fun p => (c2 :: p.1, p.2))
          | none => none
    | c :: rest =>
      if c.toNat < 32 then none
      else (parseJsonStr fuel rest).map (fun p => (c :: p.1, p.2))

/-- Longest digit run at the head of the list. -/
def spanDigits (cs : List Char) : List Char × List Char :=
  (cs.takeWhile Char.isDigit, cs.dropWhile Char.isDigit)

/-- JSON integer part: `0` or a nonzero digit followed by digits. -/
def parseIntDigits : List Char → Option (List Char × List Char)
  | [] => none
  | c :: rest =>
    if c = '0' then some (['0'], rest)
    else if c.isDigit then
      let p := spanDigits rest
      some (c :: p.1, p.2)
    else none

/-- Optional fractional part `.digits`; consumes nothing when absent. -/
def parseOptFrac (cs : List Char) : List Char × List Char :=
  match cs with
  | '.' :: rest =>
    let p := spanDigits rest
    if p.1.isEmpty then ([], cs) else ('.' :: p.1, p.2)
  | _ => ([], cs)

/-- Optional exponent part; consumes nothing when absent. -/
def parseOptExp (cs : List Char) : List Char × List Char :=
  match cs with
  | c :: rest =>
    if c = 'e' || c = 'E' then
      match rest with
      | s :: rest2 =>
        if s = '+' || s = '-' then
          let p := spanDigits rest2
          if p.1.isEmpty then ([], cs) else (c :: s :: p.1, p.2)
        else
          let p := spanDigits rest
          if p.1.isEmpty then ([], cs) else (c :: p.1, p.2)
      | [] => ([], cs)
    else ([], cs)
  | [] => ([], cs)

/-- Unsigned JSON number. -/
def parseNumberCore (cs : List Char) : Option (String × List Char) :=
  (parseIntDigits cs).map (fun ip =>
    let fp := parseOptFrac ip.2
    let ep := parseOptExp fp.2
    (String.mk (ip.1 ++ fp.1 ++ ep.1), ep.2))

/-- JSON number with optional leading minus. -/
def parseJsonNumber (cs : List Char) : Option (PyVal × List Char) :=
  match cs with
  | '-' :: rest => (parseNumberCore rest).map (fun p => (PyVal.num ("-" ++ p.1), p.2))
  | _ => (parseNumberCore cs).map (fun p => (PyVal.num p.1, p.2))

/-- Strip a literal prefix, returning the remainder when it matches. -/
def stripLit : List Char → List Char → Option (List Char)
  | [], rest => some rest
  | _, [] => none
  | l :: ls, c :: rest => if c = l then stripLit ls rest else none

mutual

/-- Parse one JSON value (fuel-indexed; the fuel bounds nesting depth). -/
def parseJsonVal : Nat → List Char → Option (PyVal × List Char)
  | 0, _ => none
  | fuel + 1, cs0 =>
    match skipWsJson cs0 with
    | '[' :: rest => parseJsonArr fuel rest
    | '{' :: rest => parseJsonObj fuel rest
    | '"' :: rest =>
      (parseJsonStr (rest.length + 1) rest).map (fun p => (PyVal.str (String.mk p.1), p.2))
    | cs =>
      ((stripLit "true".data cs).map (fun r => (PyVal.bool true, r))) <|>
      ((stripLit "false".data cs).map (fun r => (PyVal.bool false, r))) <|>
      ((stripLit "null".data cs).map (fun r => (PyVal.null, r))) <|>
      ((stripLit "NaN".data cs).map (fun r => (PyVal.num "NaN", r))) <|>
      ((stripLit "Infinity".data cs).map (fun r => (PyVal.num "Infinity", r))) <|>
      ((stripLit "-Infinity".data cs).map (fun r => (PyVal.num "-Infinity", r))) <|>
      parseJsonNumber cs

/-- Parse an array body after the opening bracket. -/
def parseJsonArr : Nat → List Char → Option (PyVal × List Char)
  | 0, _ => none
  | fuel + 1, cs =>
    match skipWsJson cs with
    | ']' :: rest => some (PyVal.arr [], rest)
    | cs2 =>
      (parseJsonVal fuel cs2).bind (fun p =>
        (parseJsonArrRest fuel p.2).map (fun q => (PyVal.arr (p.1 :: q.1), q.2)))

/-- Parse `, value`* `]` after the first array element. -/
def parseJsonArrRest : Nat → List Char → Option (List PyVal × List Char)
  | 0, _ => none
  | fuel + 1, cs =>
    match skipWsJson cs with
    | ']' :: rest => some ([], rest)
    | ',' :: rest =>
      (parseJsonVal fuel rest).bind (fun p =>
        (parseJsonArrRest fuel p.2).map (fun q => (p.1 :: q.1, q.2)))
    | _ => none

/-- Parse an object body after the opening brace. -/
def parseJsonObj : Nat → List Char → Option (PyVal × List Char)
  | 0, _ => none
  | fuel + 1, cs =>
    match skipWsJson cs with
    | '}' :: rest => some (PyVal.obj [], rest)
    | '"' :: rest =>
      (parseJsonStr (rest.length + 1) rest).bind (fun k =>
        match skipWsJson k.2 with
        | ':' :: r2 =>
          (parseJsonVal fuel r2).bind (fun p =>
            (parseJsonObjRest fuel p.2).map
              (fun q => (PyVal.obj ((String.mk k.1, p.1) :: q.1), q.2)))
        | _ => none)
    | _ => none

/-- Parse `, "key": value`* `}` after the first object entry. -/
def parseJsonObjRest : Nat → List Char → Option (List (String × PyVal) × List Char)
  | 0, _ => none
  | fuel + 1, cs =>
    match skipWsJson cs with
    | '}' :: rest => some ([], rest)
    | ',' :: rest =>
      match skipWsJson rest with
      | '"' :: r =>
        (parseJsonStr (r.length + 1) r).bind (fun k =>
          match skipWsJson k.2 with
          | ':' :: r2 =>
            (parseJsonVal fuel r2).bind (fun p =>
              (parseJsonObjRest fuel p.2).map
                (fun q => ((String.mk k.1, p.1) :: q.1, q.2)))
          | _ => none)
      | _ => none
    | _ => none

end

/-- `json.loads`: parse a complete document, allowing surrounding whitespace
and rejecting trailing data.  Returns `none` when the source raises
`json.JSONDecodeError`. -/
def jsonLoads (s : String) : Option PyVal :=
  match parseJsonVal (s.data.length + 1) s.data with
  | some p => if (skipWsJson p.2).isEmpty then some p.1 else none
  | none => none

/-! ## Exceptions (app/exceptions/__init__.py)

One constructor per concrete exception class.  `categoryNotFound` does not
exist in the repository sources — app/tools.py imports and catches a
`CategoryNotFoundException`, but app/exceptions/__init__.py never defines it.
Modelled from the spec: the error taxonomy of spec section 7 names a
category-not-found variant alongside the budget/account/payee ones, so it is
modelled here in their image (a `YNABAPIException` subclass carrying the id,
status 404). -/

inductive PyExc where
  | ynabAPI (message : String) (statusCode : Option Nat)
  | rateLimit (retryAfter : Option Nat)
  | budgetNotFound (budgetId : String)
  | accountNotFound (accountId : String)
  | payeeNotFound (payeeId : PyVal)
  | categoryNotFound (categoryId : String)
  | authentication (message : String)
  | invalidDate (dateStr : String)
  | keyError (msg : String)

/-- Membership in the `YNABAPIException` branch of the class hierarchy
(`RateLimitException` and the not-found classes subclass it;
`AuthenticationException` and `InvalidDateException` subclass only
`YNABMCPException`; `keyError` stands for non-project exceptions). -/
def PyExc.isYNABAPIException : PyExc → Bool
  | .ynabAPI _ _ => true
  | .rateLimit _ => true
  | .budgetNotFound _ => true
  | .accountNotFound _ => true
  | .payeeNotFound _ => true
  | .categoryNotFound _ => true
  | _ => false

/-- The `status_code` attribute of a `YNABAPIException`. -/
def PyExc.statusCode : PyExc → Option Nat
  | .ynabAPI _ sc => sc
  | .rateLimit _ => some 429
  | .budgetNotFound _ => some 404
  | .accountNotFound _ => some 404
  | .payeeNotFound _ => some 404
  | .categoryNotFound _ => some 404
  | _ => none

/-- Python `str()` of a JSON value, as interpolated into messages and URLs
(container values would render via `repr`; only the scalar cases occur in the
claims, the container case is approximated by its JSON text). -/
def pyStr : PyVal → String
  | .null => "None"
  | .bool true => "True"
  | .bool false => "False"
  | .num raw => raw
  | .str s => s
  | .arr _ => "<list>"
  | .obj _ => "<dict>"

/-- `str(e)` for each exception class (the message passed to the
constructor). -/
def PyExc.message : PyExc → String
  | .ynabAPI m _ => m
  | .rateLimit _ => "Rate limit exceeded"
  | .budgetNotFound b => "Budget with ID \x27" ++ b ++ "\x27 not found"
  | .accountNotFound a => "Account with ID \x27" ++ a ++ "\x27 not found"
  | .payeeNotFound p => "Payee with ID \x27" ++ pyStr p ++ "\x27 not found"
  | .categoryNotFound c => "Category with ID \x27" ++ c ++ "\x27 not found"
  | .authentication m => m
  | .invalidDate d => "Invalid date format: \x27" ++ d ++ "\x27. Expected format: YYYY-MM-DD"
  | .keyError m => m

/-! ## Substring search (the `"budget" in str(e).lower()` heuristic) -/

/-- Prefix test on character lists. -/
def charsPrefix : List Char → List Char → Bool
  | [], _ => true
  | _ :: _, [] => false
  | a :: as, b :: bs => a = b && charsPrefix as bs

/-- Substring test on character lists. -/
def containsSub (needle : List Char) : List Char → Bool
  | [] => needle.isEmpty
  | c :: cs => charsPrefix needle (c :: cs) || containsSub needle cs

/-- ASCII lowercase (Python `str.lower()`; the messages involved are ASCII). -/
def charLower (c : Char) : Char :=
  if 'A' ≤ c && c ≤ 'Z' then Char.ofNat (c.toNat + 32) else c

/-- `"budget" in s.lower()` — the fragile 404 disambiguation heuristic. -/
def mentionsBudget (s : String) : Bool :=
  containsSub "budget".data (s.data.map charLower)

/-! ## API requests and the upstream oracle (app/services/__init__.py)

The service layer is embedded as pure functions over a `World` that assigns an
outcome to every request.  Each service method returns the list of requests it
issued (in order) together with its Python result: a value or a raised
exception. -/

/-- Query parameters attached to a GET request (a `none` field is an omitted
parameter; the source omits falsy values). -/
structure QueryParams where
  since_date : Option String
  type : Option String
  last_knowledge_of_server : Option Int
deriving DecidableEq

/-- Parameter dict built by `get_transactions` / `get_payee_transactions`
(`if since_date: params["since_date"] = since_date`, etc.). -/
def mkQueryParams (sinceDate txType : Option String) (lastK : Option Int) : QueryParams where
  since_date := if truthyStr sinceDate then sinceDate else none
  type := if truthyStr txType then txType else none
  last_knowledge_of_server :=
    match lastK with
    | some k => if k ≠ 0 then some k else none
    | none => none

/-- The `{"transaction": {...}}` body of the update PUT: a field is present
exactly when the corresponding argument was not `None`. -/
structure UpdatePayload where
  memo : Option String
  amount : Option Int
  payee_id : Option String
  payee_name : Option String
  category_id : Option String
  cleared : Option String
  approved : Option Bool
  flag_color : Option String
  date : Option String
deriving DecidableEq

/-- Keys present in the payload dict, in the insertion order of the source. -/
def UpdatePayload.fields (p : UpdatePayload) : List String :=
  (if p.memo.isSome then ["memo"] else []) ++
  (if p.amount.isSome then ["amount"] else []) ++
  (if p.payee_id.isSome then ["payee_id"] else []) ++
  (if p.payee_name.isSome then ["payee_name"] else []) ++
  (if p.category_id.isSome then ["category_id"] else []) ++
  (if p.cleared.isSome then ["cleared"] else []) ++
  (if p.approved.isSome then ["approved"] else []) ++
  (if p.flag_color.isSome then ["flag_color"] else []) ++
  (if p.date.isSome then ["date"] else [])

/-- The upstream endpoints this system can hit, with their inputs.  The payee
id travels as the JSON value the tool extracted (the source interpolates that
object into the URL). -/
inductive ApiRequest where
  | budgetTransactions (budgetId : String) (params : QueryParams)
  | accountTransactions (budgetId accountId : String) (params : QueryParams)
  | categoryTransactions (budgetId categoryId : String) (params : QueryParams)
  | payeeTransactions (budgetId : String) (payeeId : PyVal) (params : QueryParams)
  | putTransaction (budgetId transactionId : String) (payload : UpdatePayload)

/-- Parsed `data` payload of a successful upstream response. -/
inductive ApiBody where
  | txList (transactions : List TransactionDetail)
  | tx (transaction : TransactionDetail)

/-- Outcome of one HTTP exchange: a 2xx response with a parsed body, a
non-2xx response (with optional error detail and Retry-After header), or an
`httpx.RequestError` (timeout, transport failure). -/
inductive Upstream where
  | ok (body : ApiBody)
  | httpError (status : Nat) (detail : Option String) (retryAfter : Option Nat)
  | networkError (msg : String)

/-- The upstream oracle. -/
structure World where
  fetch : ApiRequest → Upstream

/-- `YNABService._make_request`: status-code mapping to the exception
taxonomy (401 → `AuthenticationException`, 429 → `RateLimitException`,
404 and other non-2xx → `YNABAPIException`, transport errors →
`YNABAPIException` with no status). -/
def makeRequest (w : World) (req : ApiRequest) : Except PyExc ApiBody :=
  match w.fetch req with
  | .ok body => .ok body
  | .httpError status detail retryAfter =>
    if status = 401 then .error (.authentication "Invalid or expired access token")
    else if status = 429 then .error (.rateLimit retryAfter)
    else if status = 404 then .error (.ynabAPI (detail.getD "Resource not found") (some 404))
    else .error (.ynabAPI (detail.getD ("API error: " ++ toString status)) (some status))
  | .networkError m => .error (.ynabAPI ("Network error: " ++ m) none)

/-- `YNABService.get_transactions`: validate `since_date`, pick the
account-scoped endpoint when an account id is (truthily) present, otherwise
the unscoped budget endpoint; convert a 404 into the account/budget
not-found exception. -/
def serviceGetTransactions (w : World) (budget_id : String)
    (account_id since_date transaction_type : Option String) (lastK : Option Int) :
    List ApiRequest × Except PyExc (List TransactionDetail) :=
  if truthyStr since_date && !isValidYnabDate (since_date.getD "") then
    ([], .error (.invalidDate (since_date.getD "")))
  else
    let params := mkQueryParams since_date transaction_type lastK
    let req :=
      if truthyStr account_id then
        ApiRequest.accountTransactions budget_id (account_id.getD "") params
      else ApiRequest.budgetTransactions budget_id params
    ([req],
      match makeRequest w req with
      | .ok (.txList ts) => .ok ts
      | .ok (.tx _) => .error (.keyError "transactions")
      | .error e =>
        if e.isYNABAPIException && e.statusCode == some 404 then
          if truthyStr account_id then .error (.accountNotFound (account_id.getD ""))
          else .error (.budgetNotFound budget_id)
        else .error e)

/-- `YNABService.get_payee_transactions`: validate `since_date`, call the
payee-scoped endpoint, disambiguate a 404 by the `"budget" in str(e).lower()`
heuristic. -/
def serviceGetPayeeTransactions (w : World) (budget_id : String) (payee_id : PyVal)
    (since_date transaction_type : Option String) (lastK : Option Int) :
    List ApiRequest × Except PyExc (List TransactionDetail) :=
  if truthyStr since_date && !isValidYnabDate (since_date.getD "") then
    ([], .error (.invalidDate (since_date.getD "")))
  else
    let params := mkQueryParams since_date transaction_type lastK
    let req := ApiRequest.payeeTransactions budget_id payee_id params
    ([req],
      match makeRequest w req with
      | .ok (.txList ts) => .ok ts
      | .ok (.tx _) => .error (.keyError "transactions")
      | .error e =>
        if e.isYNABAPIException && e.statusCode == some 404 then
          if mentionsBudget e.message then .error (.budgetNotFound budget_id)
          else .error (.payeeNotFound payee_id)
        else .error e)

/-- Modelled from the spec: `YNABService.get_category_transactions` is called
by `get_transactions` in app/tools.py but is defined nowhere in the
repository sources.  Following spec sections 4.1/4.2 ("query the
category-scoped endpoint", same client contract as the sibling queries) it is
modelled exactly like `get_payee_transactions` with the category-scoped
endpoint and the category-not-found variant. -/
def serviceGetCategoryTransactions (w : World) (budget_id category_id : String)
    (since_date transaction_type : Option String) (lastK : Option Int) :
    List ApiRequest × Except PyExc (List TransactionDetail) :=
  if truthyStr since_date && !isValidYnabDate (since_date.getD "") then
    ([], .error (.invalidDate (since_date.getD "")))
  else
    let params := mkQueryParams since_date transaction_type lastK
    let req := ApiRequest.categoryTransactions budget_id category_id params
    ([req],
      match makeRequest w req with
      | .ok (.txList ts) => .ok ts
      | .ok (.tx _) => .error (.keyError "transactions")
      | .error e =>
        if e.isYNABAPIException && e.statusCode == some 404 then
          if mentionsBudget e.message then .error (.budgetNotFound budget_id)
          else .error (.categoryNotFound category_id)
        else .error e)

/-- `YNABService.update_transaction`: validate `date`, build the partial
payload (a key per non-`None` argument), PUT it, construct the result record
from the response body; a 404 whose message mentions "budget" becomes
budget-not-found, any other 404 is re-raised unchanged. -/
def serviceUpdateTransaction (w : World) (budget_id transaction_id : String)
    (memo : Option String) (amount : Option Int)
    (payee_id payee_name category_id cleared : Option String)
    (approved : Option Bool) (flag_color date : Option String) :
    List ApiRequest × Except PyExc TransactionDetail :=
  if truthyStr date && !isValidYnabDate (date.getD "") then
    ([], .error (.invalidDate (date.getD "")))
  else
    let payload : UpdatePayload :=
      { memo := memo, amount := amount, payee_id := payee_id, payee_name := payee_name,
        category_id := category_id, cleared := cleared, approved := approved,
        flag_color := flag_color, date := date }
    let req := ApiRequest.putTransaction budget_id transaction_id payload
    ([req],
      match makeRequest w req with
      | .ok (.tx t) => .ok t
      | .ok (.txList _) => .error (.keyError "transaction")
      | .error e =>
        if e.isYNABAPIException && e.statusCode == some 404 then
          if mentionsBudget e.message then .error (.budgetNotFound budget_id)
          else .error e
        else .error e)

/-! ## The `get_transactions` tool (app/tools.py) -/

/-- The `payee_id` tool parameter: `Optional[List[str] | str]`.  A list may
hold arbitrary JSON values, because the string form is fed through
`json.loads`. -/
inductive PayeeParam where
  | str (s : String)
  | list (elems : List PyVal)

/-- Python truthiness of the optional payee parameter (`if payee_id:`). -/
def truthyPayee : Option PayeeParam → Bool
  | none => false
  | some (.str s) => s ≠ ""
  | some (.list l) => !l.isEmpty

/-- `payee_id.strip().startswith('[')`. -/
def stripStartsWithBracket (s : String) : Bool :=
  match (pyStrip s).data with
  | '[' :: _ => true
  | _ => false

/-- The JSON-string coercion at the top of `get_transactions`: a truthy
string whose stripped form starts with `[` is passed through `json.loads`;
on success the parsed list replaces the parameter, on failure the original
string is kept.  Everything else is left untouched. -/
def coercePayeeParam : Option PayeeParam → Option PayeeParam
  | some (.str s) =>
    if s ≠ "" && stripStartsWithBracket s then
      match jsonLoads s with
      | some (.arr l) => some (.list l)
      | some _ => some (.str s)
      | none => some (.str s)
    else some (.str s)
  | x => x

/-- Python `==` between a transaction's `payee_id` (`str` or `None`) and a
JSON value from a parsed payee list (`t.payee_id in payee_id`). -/
def payeeValMatches : Option String → PyVal → Bool
  | none, .null => true
  | some s, .str u => s == u
  | _, _ => false

/-- The in-memory payee filter of the account and category branches. -/
def applyPayeeFilter (p : PayeeParam) (ts : List TransactionDetail) :
    List TransactionDetail :=
  match p with
  | .list l => ts.filter (fun t => l.any (payeeValMatches t.payee_id))
  | .str s => ts.filter (fun t => t.payee_id == some s)

/-- The in-memory category filter (`t.category_id == category_id`). -/
def applyCategoryFilter (c : String) (ts : List TransactionDetail) :
    List TransactionDetail :=
  ts.filter (fun t => t.category_id == some c)

/-- The in-memory empty-memo filter (`if empty_memo is not None: ...`). -/
def applyMemoFilter (em : Option Bool) (ts : List TransactionDetail) :
    List TransactionDetail :=
  match em with
  | none => ts
  | some true => ts.filter (fun t => isMemoEmpty t.memo)
  | some false => ts.filter (fun t => !isMemoEmpty t.memo)

/-- The in-memory pipeline of the account branch: payee filter when the
payee parameter is truthy, then category filter when the category id is
truthy, then the memo filter. -/
def accountBranchFilters (payee : Option PayeeParam) (category_id : Option String)
    (em : Option Bool) (ts : List TransactionDetail) : List TransactionDetail :=
  let ft1 := if truthyPayee payee then applyPayeeFilter (payee.getD (.str "")) ts else ts
  let ft2 := if truthyStr category_id then applyCategoryFilter (category_id.getD "") ft1 else ft1
  applyMemoFilter em ft2

/-- The success dictionary returned by the tool (a `none` field is an absent
key; `filtered_by` is set only by the category-then-payee branch). -/
structure ToolResponse where
  transactions : List TransactionDetail
  count : Nat
  budget_id : String
  account_id : Option String
  payee_id : Option PayeeParam
  category_id : Option String
  empty_memo : Option Bool
  filtered_by : Option String

/-- The uniform `{"error": ..., ...}` dictionary. -/
structure ErrorObject where
  error : String
  status_code : Option Nat := none
  budget_id : Option String := none
  account_id : Option String := none
  payee_id : Option PyVal := none
  category_id : Option String := none

/-- What crosses the tool boundary: a success dict, an error dict, or an
exception that none of the tool's `except` clauses matched and which
therefore propagates to the protocol layer. -/
inductive ToolOutcome where
  | ok (resp : ToolResponse)
  | errorObj (e : ErrorObject)
  | raised (e : PyExc)

/-- The `except` chain of `get_transactions` (app/tools.py lines 443-452):
the four not-found classes, then `YNABAPIException`.  Anything else —
notably `AuthenticationException` and `InvalidDateException` — is unmatched
and propagates. -/
def handleToolExc (e : PyExc) : ToolOutcome :=
  match e with
  | .budgetNotFound b => .errorObj { error := e.message, budget_id := some b }
  | .accountNotFound a => .errorObj { error := e.message, account_id := some a }
  | .payeeNotFound p => .errorObj { error := e.message, payee_id := some p }
  | .categoryNotFound c => .errorObj { error := e.message, category_id := some c }
  | _ =>
    if e.isYNABAPIException then .errorObj { error := e.message, status_code := e.statusCode }
    else .raised e

/-- The multiple-payee loop of the payee branch: one
`get_payee_transactions` call per list element, results extended in order;
an exception aborts the loop. -/
def runPayeeLoop (w : World) (budget_id : String)
    (since_date transaction_type : Option String) :
    List PyVal → List ApiRequest × Except PyExc (List TransactionDetail)
  | [] => ([], .ok [])
  | v :: rest =>
    let r := serviceGetPayeeTransactions w budget_id v since_date transaction_type none
    match r.2 with
    | .error e => (r.1, .error e)
    | .ok ts =>
      let r2 := runPayeeLoop w budget_id since_date transaction_type rest
      (r.1 ++ r2.1,
        match r2.2 with
        | .error e => .error e
        | .ok ts2 => .ok (ts ++ ts2))

/-- The body of the `get_transactions` tool (app/tools.py lines 230-452):
token check, payee-id JSON coercion, then the endpoint-priority decision
tree, each branch applying its in-memory filters and packaging the response;
exceptions flow into `handleToolExc`.  The widget payload is presentation
only and is not modelled. -/
def getTransactionsTool (w : World) (token : Option String) (budget_id : String)
    (account_id : Option String) (payee_id0 : Option PayeeParam)
    (category_id since_date transaction_type : Option String)
    (empty_memo : Option Bool) : List ApiRequest × ToolOutcome :=
  match token with
  | none => ([], .errorObj { error := "No valid authentication token found" })
  | some _ =>
    let payee_id := coercePayeeParam payee_id0
    if truthyStr account_id then
      let r := serviceGetTransactions w budget_id account_id since_date transaction_type none
      match r.2 with
      | .error e => (r.1, handleToolExc e)
      | .ok transactions =>
        let ft := accountBranchFilters payee_id category_id empty_memo transactions
        (r.1, .ok {
          transactions := ft, count := ft.length, budget_id := budget_id,
          account_id := account_id,
          payee_id := if truthyPayee payee_id then payee_id else none,
          category_id := if truthyStr category_id then category_id else none,
          empty_memo := empty_memo, filtered_by := none })
    else if truthyStr category_id && truthyPayee payee_id then
      let r := serviceGetCategoryTransactions w budget_id (category_id.getD "")
        since_date transaction_type none
      match r.2 with
      | .error e => (r.1, handleToolExc e)
      | .ok transactions =>
        let ft := applyMemoFilter empty_memo (applyPayeeFilter (payee_id.getD (.str "")) transactions)
        (r.1, .ok {
          transactions := ft, count := ft.length, budget_id := budget_id,
          account_id := none, payee_id := payee_id, category_id := category_id,
          empty_memo := empty_memo, filtered_by := some "category_then_payee" })
    else if truthyStr category_id then
      let r := serviceGetCategoryTransactions w budget_id (category_id.getD "")
        since_date transaction_type none
      match r.2 with
      | .error e => (r.1, handleToolExc e)
      | .ok transactions =>
        let ft := applyMemoFilter empty_memo transactions
        (r.1, .ok {
          transactions := ft, count := ft.length, budget_id := budget_id,
          account_id := none, payee_id := none, category_id := category_id,
          empty_memo := empty_memo, filtered_by := none })
    else if truthyPayee payee_id then
      let r :=
        match payee_id.getD (.str "") with
        | .list l => runPayeeLoop w budget_id since_date transaction_type l
        | .str s => serviceGetPayeeTransactions w budget_id (.str s) since_date transaction_type none
      match r.2 with
      | .error e => (r.1, handleToolExc e)
      | .ok transactions =>
        let ft := applyMemoFilter empty_memo transactions
        (r.1, .ok {
          transactions := ft, count := ft.length, budget_id := budget_id,
          account_id := none, payee_id := payee_id, category_id := none,
          empty_memo := empty_memo, filtered_by := none })
    else
      let r := serviceGetTransactions w budget_id none since_date transaction_type none
      match r.2 with
      | .error e => (r.1, handleToolExc e)
      | .ok transactions =>
        let ft := applyMemoFilter empty_memo transactions
        (r.1, .ok {
          transactions := ft, count := ft.length, budget_id := budget_id,
          account_id := none, payee_id := none, category_id := none,
          empty_memo := empty_memo, filtered_by := none })

/-- Projection used by the claim statements: the transaction list of a
successful tool outcome. -/
def ToolOutcome.transactionsOf : ToolOutcome → Option (List TransactionDetail)
  | .ok r => some r.transactions
  | _ => none

/-! ## Token verification (app/auth/simple_ynab.py `SimpleYNABVerifier`) -/

/-- The `AccessToken` record built by `verify_token`; the `claims` dict is
flattened into its three keys. -/
structure AccessTokenRec where
  token : String
  client_id : String
  scopes : List String
  expires_at : Nat
  sub : PyVal
  email : PyVal
  ynab_user_data : PyVal

/-- Outcome of the upstream `GET /v1/user` call: an HTTP response with a raw
body, or a raised exception (timeout, transport error). -/
inductive VerifyOutcome where
  | response (status : Nat) (body : String)
  | exceptionRaised (msg : String)

/-- Python `d.get(key, default)`: `none` models the `AttributeError` raised
when the receiver is not a dict.  Duplicate keys keep the last occurrence,
as `json.loads` does. -/
def pyDictGetD (v : PyVal) (key : String) (dflt : PyVal) : Option PyVal :=
  match v with
  | .obj entries =>
    some ((((entries.reverse).find? (fun kv => kv.fst == key)).map Prod.snd).getD dflt)
  | _ => none

/-- `SimpleYNABVerifier.verify_token`, with `time.time()` as an explicit
`now`: the hard-coded development token bypasses the upstream check; any
exception or non-200 status yields `None`; a 200 response has its body
parsed as JSON and mined for `data.user`, and any failure along the way is
swallowed by the final `except Exception` into `None`. -/
def verifyToken (now : Nat) (outcome : VerifyOutcome) (token : String) :
    Option AccessTokenRec :=
  if token = "test-token-123" then
    some { token := token, client_id := "ynab-test", scopes := ["read-only"],
           expires_at := now + 90 * 60, sub := .str "test-user-123",
           email := .str "test@example.com",
           ynab_user_data := .obj [("id", PyVal.str "test-user-123")] }
  else
    match outcome with
    | .exceptionRaised _ => none
    | .response status body =>
      if status ≠ 200 then none
      else
        match jsonLoads body with
        | none => none
        | some user_data =>
          match pyDictGetD user_data "data" (.obj []) with
          | none => none
          | some dataVal =>
            match pyDictGetD dataVal "user" (.obj []) with
            | none => none
            | some userInfo =>
              match pyDictGetD userInfo "id" (.str "unknown"),
                    pyDictGetD userInfo "email" .null with
              | some subV, some emailV =>
                some { token := token, client_id := "ynab-direct",
                       scopes := ["read-only"], expires_at := now + 90 * 60,
                       sub := subV, email := emailV, ynab_user_data := userInfo }
              | _, _ => none

/-! ## Echo stub for the update round-trip (spec section 8) -/

/-- Parse the `cleared` strings accepted upstream. -/
def clearedOfString (s : String) : Option TransactionClearedStatus :=
  if s = "cleared" then some .cleared
  else if s = "uncleared" then some .uncleared
  else if s = "reconciled" then some .reconciled
  else none

/-- Parse the `flag_color` strings accepted upstream. -/
def flagColorOfString (s : String) : Option TransactionFlagColor :=
  if s = "red" then some .red
  else if s = "orange" then some .orange
  else if s = "yellow" then some .yellow
  else if s = "green" then some .green
  else if s = "blue" then some .blue
  else if s = "purple" then some .purple
  else none

/-- Merge a partial-field patch into a stored transaction, field by field —
the behaviour of the spec's "stub upstream that echoes merged state".  An
absent patch field leaves the stored value; enum-valued fields take the
parsed patch string when it is a legal value. -/
def applyPatch (t : TransactionDetail) (p : UpdatePayload) : TransactionDetail :=
  { t with
    memo := p.memo.or t.memo
    amount := p.amount.getD t.amount
    payee_id := p.payee_id.or t.payee_id
    payee_name := p.payee_name.or t.payee_name
    category_id := p.category_id.or t.category_id
    cleared :=
      match p.cleared with
      | some c => (clearedOfString c).getD t.cleared
      | none => t.cleared
    approved := p.approved.getD t.approved
    flag_color :=
      match p.flag_color with
      | some c =>
        match flagColorOfString c with
        | some fc => some fc
        | none => t.flag_color
      | none => t.flag_color
    date := p.date.getD t.date }

/-- The echoing stub upstream: every PUT answers with the merged state of the
stored transaction `t0`; GETs are irrelevant here. -/
def echoWorld (t0 : TransactionDetail) : World :=
  ⟨fun req =>
    match req with
    | .putTransaction _ _ payload => .ok (.tx (applyPatch t0 payload))
    | _ => .ok (.txList [])⟩

/-- The payload `update_transaction` builds when only `memo` is supplied. -/
def memoOnlyPayload (m : String) : UpdatePayload :=
  { memo := some m, amount := none, payee_id := none, payee_name := none,
    category_id := none, cleared := none, approved := none, flag_color := none,
    date := none }

/-! ## Concrete fixtures used by witnesses and counterexamples -/

/-- A world that answers every GET with a fixed transaction list. -/
def constListWorld (L : List TransactionDetail) : World :=
  ⟨fun _ => .ok (.txList L)⟩

/-- A world whose every response is a 401. -/
def world401 : World :=
  ⟨fun _ => .httpError 401 none none⟩

/-- A minimal concrete transaction with a given amount. -/
def sampleTransaction (amt : Int) : Transaction :=
  { id := "t1", date := "2024-01-15", amount := amt, memo := none,
    cleared := .cleared, approved := true, flag_color := none, flag_name := none,
    account_id := "a1", payee_id := none, category_id := none,
    transfer_account_id := none, transfer_transaction_id := none,
    matched_transaction_id := none, import_id := none, import_payee_name := none,
    import_payee_name_original := none, deleted := false }

/-- A minimal concrete transaction detail with a given memo and payee. -/
def sampleDetail (memo : Option String) (payee : Option String) : TransactionDetail :=
  { toTransaction := { sampleTransaction 1000 with memo := memo, payee_id := payee },
    account_name := "Checking", payee_name := payee, category_name := none,
    subtransactions := [] }

/-! ## Helper lemmas about the service layer -/

lemma truthyStr_some {a : String} (ha : a ≠ "") : truthyStr (some a) = true := by
  simp [truthyStr, ha]

lemma truthyStr_none : truthyStr none = false := rfl

lemma dateCond_false {sd : Option String}
    (hd : truthyStr sd = true → isValidYnabDate (sd.getD "") = true) :
    (truthyStr sd && !isValidYnabDate (sd.getD "")) = false := by
  cases hsd : truthyStr sd
  · simp
  · simp [hd hsd]

lemma serviceGetTransactions_account_ok (w : World) (b a : String)
    (sd tt : Option String) (lk : Option Int) (L : List TransactionDetail)
    (ha : a ≠ "")
    (hd : truthyStr sd = true → isValidYnabDate (sd.getD "") = true)
    (hL : w.fetch (.accountTransactions b a (mkQueryParams sd tt lk)) = .ok (.txList L)) :
    serviceGetTransactions w b (some a) sd tt lk
      = ([.accountTransactions b a (mkQueryParams sd tt lk)], .ok L) := by
  simp [serviceGetTransactions, dateCond_false hd, truthyStr_some ha, makeRequest, hL]

lemma serviceGetTransactions_account_fst (w : World) (b a : String)
    (sd tt : Option String) (lk : Option Int)
    (ha : a ≠ "")
    (hd : truthyStr sd = true → isValidYnabDate (sd.getD "") = true) :
    (serviceGetTransactions w b (some a) sd tt lk).1
      = [.accountTransactions b a (mkQueryParams sd tt lk)] := by
  simp [serviceGetTransactions, dateCond_false hd, truthyStr_some ha]

lemma serviceGetTransactions_budget_ok (w : World) (b : String)
    (sd tt : Option String) (lk : Option Int) (L : List TransactionDetail)
    (hd : truthyStr sd = true → isValidYnabDate (sd.getD "") = true)
    (hL : w.fetch (.budgetTransactions b (mkQueryParams sd tt lk)) = .ok (.txList L)) :
    serviceGetTransactions w b none sd tt lk
      = ([.budgetTransactions b (mkQueryParams sd tt lk)], .ok L) := by
  simp [serviceGetTransactions, dateCond_false hd, truthyStr_none, makeRequest, hL]

lemma serviceGetPayeeTransactions_ok (w : World) (b : String) (v : PyVal)
    (sd tt : Option String) (lk : Option Int) (L : List TransactionDetail)
    (hd : truthyStr sd = true → isValidYnabDate (sd.getD "") = true)
    (hL : w.fetch (.payeeTransactions b v (mkQueryParams sd tt lk)) = .ok (.txList L)) :
    serviceGetPayeeTransactions w b v sd tt lk
      = ([.payeeTransactions b v (mkQueryParams sd tt lk)], .ok L) := by
  simp [serviceGetPayeeTransactions, dateCond_false hd, makeRequest, hL]

lemma serviceGetCategoryTransactions_ok (w : World) (b c : String)
    (sd tt : Option String) (lk : Option Int) (L : List TransactionDetail)
    (hd : truthyStr sd = true → isValidYnabDate (sd.getD "") = true)
    (hL : w.fetch (.categoryTransactions b c (mkQueryParams sd tt lk)) = .ok (.txList L)) :
    serviceGetCategoryTransactions w b c sd tt lk
      = ([.categoryTransactions b c (mkQueryParams sd tt lk)], .ok L) := by
  simp [serviceGetCategoryTransactions, dateCond_false hd, makeRequest, hL]

lemma serviceGetCategoryTransactions_fst (w : World) (b c : String)
    (sd tt : Option String) (lk : Option Int)
    (hd : truthyStr sd = true → isValidYnabDate (sd.getD "") = true) :
    (serviceGetCategoryTransactions w b c sd tt lk).1
      = [.categoryTransactions b c (mkQueryParams sd tt lk)] := by
  simp [serviceGetCategoryTransactions, dateCond_false hd]

lemma runPayeeLoop_ok (w : World) (b : String) (sd tt : Option String)
    (f : PyVal → List TransactionDetail)
    (hd : truthyStr sd = true → isValidYnabDate (sd.getD "") = true) :
    ∀ l : List PyVal,
      (∀ v ∈ l, w.fetch (.payeeTransactions b v (mkQueryParams sd tt none)) = .ok (.txList (f v))) →
      runPayeeLoop w b sd tt l
        = (l.map (fun v => .payeeTransactions b v (mkQueryParams sd tt none)),
           .ok (l.map f).flatten) := by
  intro l
  induction l with
  | nil => intro _; simp [runPayeeLoop]
  | cons v rest ih =>
    intro h
    have hv := serviceGetPayeeTransactions_ok w b v sd tt none (f v) hd (h v (by simp))
    have ih2 := ih (fun u hu => h u (List.mem_cons_of_mem _ hu))
    simp [runPayeeLoop, hv, ih2]

/-! ## Claim theorems -/

/-- C1: the claim says every failure kind (unauthenticated, not-found,
rate-limited, invalid-input, generic upstream error) is converted into a
uniform error object and nothing ever raises past the tool boundary.  The
code violates this: the `except` chain of `get_transactions` omits
`AuthenticationException` (raised on an upstream 401) and
`InvalidDateException` (raised on a malformed `since_date` before any
network call), so both propagate to the protocol layer.  This theorem
evaluates the tool at the two failing inputs and shows the exceptions
escaping. -/
theorem C1_uncaught_exceptions_escape :
    (getTransactionsTool (constListWorld []) (some "tok") "last-used" none none none
      (some "not-a-date") none none).2 = .raised (.invalidDate "not-a-date")
  ∧ (getTransactionsTool world401 (some "tok") "last-used" none none none none none none).2
      = .raised (.authentication "Invalid or expired access token") :=
  ⟨rfl, rfl⟩

/-- C2: with a category id and truthy payee id(s) but no account id (and a
well-formed `since_date` when one is given), the tool issues exactly one
request, to the category-scoped endpoint, and on success returns the fetched
set filtered in memory by payee id (equality for a single id, membership for
a list) and then by the empty-memo filter when requested. -/
theorem C2_category_endpoint_with_payee_filter (w : World) (tok b c : String)
    (p0 : Option PayeeParam) (sd tt : Option String) (em : Option Bool)
    (hc : c ≠ "") (hp : truthyPayee (coercePayeeParam p0) = true)
    (hd : truthyStr sd = true → isValidYnabDate (sd.getD "") = true) :
    (getTransactionsTool w (some tok) b none p0 (some c) sd tt em).1
      = [ApiRequest.categoryTransactions b c (mkQueryParams sd tt none)]
  ∧ ∀ L, w.fetch (ApiRequest.categoryTransactions b c (mkQueryParams sd tt none))
        = .ok (.txList L) →
      ((getTransactionsTool w (some tok) b none p0 (some c) sd tt em).2).transactionsOf
        = some (applyMemoFilter em
            (applyPayeeFilter ((coercePayeeParam p0).getD (.str "")) L)) := by
  constructor
  · rcases hr : serviceGetCategoryTransactions w b c sd tt none with ⟨tr, res⟩
    have htr : tr = [ApiRequest.categoryTransactions b c (mkQueryParams sd tt none)] := by
      have := serviceGetCategoryTransactions_fst w b c sd tt none hd
      rw [hr] at this; exact this
    cases res with
    | error e => simp [getTransactionsTool, truthyStr_none, truthyStr_some hc, hp, hr, htr]
    | ok ts => simp [getTransactionsTool, truthyStr_none, truthyStr_some hc, hp, hr, htr]
  · intro L hL
    have hs := serviceGetCategoryTransactions_ok w b c sd tt none L hd hL
    simp [getTransactionsTool, truthyStr_none, truthyStr_some hc, hp, hs,
      ToolOutcome.transactionsOf]

/-- Fixture for the C2 witness: one matching and one non-matching payee. -/
def c2World : World :=
  constListWorld [sampleDetail (some "ok") (some "pay-1"), sampleDetail none (some "pay-2")]

/-- Witness for C2 at a concrete input: category id `cat-1`, payee list
`["pay-1"]`, no account; the single request goes to the category endpoint
and only the `pay-1` transaction survives the in-memory filter. -/
theorem C2_category_endpoint_with_payee_filter_witness :
    (getTransactionsTool c2World (some "t") "b1" none (some (.list [.str "pay-1"]))
        (some "cat-1") none none none).1
      = [ApiRequest.categoryTransactions "b1" "cat-1" (mkQueryParams none none none)]
  ∧ ((getTransactionsTool c2World (some "t") "b1" none (some (.list [.str "pay-1"]))
        (some "cat-1") none none none).2).transactionsOf
      = some [sampleDetail (some "ok") (some "pay-1")] :=
  ⟨(C2_category_endpoint_with_payee_filter c2World "t" "b1" "cat-1"
      (some (.list [.str "pay-1"])) none none none (by decide) (by decide)
      (by intro h; exact absurd h (by decide))).1,
   (C2_category_endpoint_with_payee_filter c2World "t" "b1" "cat-1"
      (some (.list [.str "pay-1"])) none none none (by decide) (by decide)
      (by intro h; exact absurd h (by decide))).2 _ rfl⟩

/-- C3: whenever a (truthy) account id is supplied — whatever other filters
accompany it, and with a well-formed `since_date` when one is given — the
tool issues exactly one request, to the account-scoped endpoint (so in
particular the category endpoint is never called), and on success applies
the payee/category/empty-memo filters in memory over the returned set.
Endpoint choice is a pure function of the filter set, so determinism is
inherent in the equation. -/
theorem C3_account_endpoint_priority (w : World) (tok b a : String)
    (p0 : Option PayeeParam) (c sd tt : Option String) (em : Option Bool)
    (ha : a ≠ "")
    (hd : truthyStr sd = true → isValidYnabDate (sd.getD "") = true) :
    (getTransactionsTool w (some tok) b (some a) p0 c sd tt em).1
      = [ApiRequest.accountTransactions b a (mkQueryParams sd tt none)]
  ∧ ∀ L, w.fetch (ApiRequest.accountTransactions b a (mkQueryParams sd tt none))
        = .ok (.txList L) →
      ((getTransactionsTool w (some tok) b (some a) p0 c sd tt em).2).transactionsOf
        = some (accountBranchFilters (coercePayeeParam p0) c em L) := by
  constructor
  · rcases hr : serviceGetTransactions w b (some a) sd tt none with ⟨tr, res⟩
    have htr : tr = [ApiRequest.accountTransactions b a (mkQueryParams sd tt none)] := by
      have := serviceGetTransactions_account_fst w b a sd tt none ha hd
      rw [hr] at this; exact this
    cases res with
    | error e => simp [getTransactionsTool, truthyStr_some ha, hr, htr]
    | ok ts => simp [getTransactionsTool, truthyStr_some ha, hr, htr]
  · intro L hL
    have hs := serviceGetTransactions_account_ok w b a sd tt none L ha hd hL
    simp [getTransactionsTool, truthyStr_some ha, hs, ToolOutcome.transactionsOf]

/-- Fixture for the C3 witness: one transaction in category `cat-1` and one
in another category. -/
def c3World : World :=
  constListWorld
    [{ sampleDetail none none with category_id := some "cat-1" },
     { sampleDetail (some "ok") none with category_id := some "cat-2" }]

/-- Witness for C3 at a concrete input: account id plus a category filter;
the single request goes to the account endpoint and the category filter is
applied in memory. -/
theorem C3_account_endpoint_priority_witness :
    (getTransactionsTool c3World (some "t") "b1" (some "acc-1") none (some "cat-1")
        none none none).1
      = [ApiRequest.accountTransactions "b1" "acc-1" (mkQueryParams none none none)]
  ∧ ((getTransactionsTool c3World (some "t") "b1" (some "acc-1") none (some "cat-1")
        none none none).2).transactionsOf
      = some [{ sampleDetail none none with category_id := some "cat-1" }] :=
  ⟨(C3_account_endpoint_priority c3World "t" "b1" "acc-1" none (some "cat-1") none none
      none (by decide) (by intro h; exact absurd h (by decide))).1,
   (C3_account_endpoint_priority c3World "t" "b1" "acc-1" none (some "cat-1") none none
      none (by decide) (by intro h; exact absurd h (by decide))).2 _ rfl⟩

/-- C4: with only payee id(s) supplied (no account, no category, a
well-formed `since_date` when given): a nonempty list of N ids produces
exactly N payee-scoped requests, one per id, in input-list order, and the N
result lists are concatenated in that order with no de-duplication (then the
separately-specified memo filter runs); a single id produces exactly one
payee-scoped request. -/
theorem C4_payee_queries_per_id (w : World) (tok b : String) (sd tt : Option String)
    (em : Option Bool) :
    (∀ (l : List PyVal) (f : PyVal → List TransactionDetail), l ≠ [] →
      (truthyStr sd = true → isValidYnabDate (sd.getD "") = true) →
      (∀ v ∈ l, w.fetch (.payeeTransactions b v (mkQueryParams sd tt none))
          = .ok (.txList (f v))) →
      (getTransactionsTool w (some tok) b none (some (.list l)) none sd tt em).1
        = l.map (fun v => ApiRequest.payeeTransactions b v (mkQueryParams sd tt none))
      ∧ ((getTransactionsTool w (some tok) b none (some (.list l)) none sd tt em).2).transactionsOf
        = some (applyMemoFilter em (l.map f).flatten))
  ∧ (∀ (s : String) (L : List TransactionDetail), s ≠ "" →
      coercePayeeParam (some (.str s)) = some (.str s) →
      (truthyStr sd = true → isValidYnabDate (sd.getD "") = true) →
      w.fetch (.payeeTransactions b (.str s) (mkQueryParams sd tt none)) = .ok (.txList L) →
      (getTransactionsTool w (some tok) b none (some (.str s)) none sd tt em).1
        = [ApiRequest.payeeTransactions b (.str s) (mkQueryParams sd tt none)]
      ∧ ((getTransactionsTool w (some tok) b none (some (.str s)) none sd tt em).2).transactionsOf
        = some (applyMemoFilter em L)) := by
  constructor
  · intro l f hl hd h
    have hcp : coercePayeeParam (some (.list l)) = some (.list l) := rfl
    have hp : truthyPayee (some (.list l)) = true := by
      simp [truthyPayee, hl]
    have hloop := runPayeeLoop_ok w b sd tt f hd l h
    constructor
    · simp [getTransactionsTool, truthyStr_none, hp, hcp, hloop]
    · simp [getTransactionsTool, truthyStr_none, hp, hcp, hloop, ToolOutcome.transactionsOf]
  · intro s L hs hcp hd hL
    have hp : truthyPayee (some (.str s)) = true := by
      simp [truthyPayee, hs]
    have hsv := serviceGetPayeeTransactions_ok w b (.str s) sd tt none L hd hL
    constructor
    · simp [getTransactionsTool, truthyStr_none, hp, hcp, hsv]
    · simp [getTransactionsTool, truthyStr_none, hp, hcp, hsv, ToolOutcome.transactionsOf]

/-- Witness for C4 at a concrete input: payee list `["A", "B"]` against a
world answering every payee query with the same singleton list; exactly two
payee-scoped requests are issued, in order, and the duplicate result is kept
(no de-duplication). -/
theorem C4_payee_queries_per_id_witness :
    (getTransactionsTool (constListWorld [sampleDetail none (some "A")]) (some "t") "b1"
        none (some (.list [.str "A", .str "B"])) none none none none).1
      = [ApiRequest.payeeTransactions "b1" (.str "A") (mkQueryParams none none none),
         ApiRequest.payeeTransactions "b1" (.str "B") (mkQueryParams none none none)]
  ∧ ((getTransactionsTool (constListWorld [sampleDetail none (some "A")]) (some "t") "b1"
        none (some (.list [.str "A", .str "B"])) none none none none).2).transactionsOf
      = some [sampleDetail none (some "A"), sampleDetail none (some "A")] :=
  (C4_payee_queries_per_id (constListWorld [sampleDetail none (some "A")]) "t" "b1"
      none none none).1 [.str "A", .str "B"] (fun _ => [sampleDetail none (some "A")])
    (List.cons_ne_nil _ _) (by intro h; exact absurd h (by decide)) (fun v _ => rfl)

/-- C5 counterexample: the claim as stated is false on the code, both ways.
The hard-coded development token `test-token-123` yields a credential even
when the upstream identity check answers 500, and a 200 response whose body
is not JSON yields invalid (`None`) rather than a credential. -/
theorem C5_counterexample :
    verifyToken 1000 (.response 500 "irrelevant body") "test-token-123"
      = some { token := "test-token-123", client_id := "ynab-test", scopes := ["read-only"],
               expires_at := 1000 + 90 * 60, sub := .str "test-user-123",
               email := .str "test@example.com",
               ynab_user_data := .obj [("id", PyVal.str "test-user-123")] }
  ∧ verifyToken 1000 (.response 200 "not json") "some-other-token" = none :=
  ⟨rfl, rfl⟩

/-- C5 (amended): for every token other than the hard-coded development
token `test-token-123`, verification yields invalid (`None`) whenever the
upstream identity check returns any non-200 status or raises (timeout,
transport error), regardless of body content; a 200 response whose JSON body
drills down to a `data`/`user` object yields a credential carrying the
user's id and email with an expiry strictly in the future at construction
(`now + 90 minutes`); the development token yields a fixed credential
without consulting the upstream at all. -/
theorem C5_amended :
    (∀ (now : Nat) (tok body : String) (s : Nat), tok ≠ "test-token-123" → s ≠ 200 →
      verifyToken now (.response s body) tok = none)
  ∧ (∀ (now : Nat) (tok m : String), tok ≠ "test-token-123" →
      verifyToken now (.exceptionRaised m) tok = none)
  ∧ (∀ (now : Nat) (tok body : String) (v d u sv ev : PyVal), tok ≠ "test-token-123" →
      jsonLoads body = some v →
      pyDictGetD v "data" (.obj []) = some d →
      pyDictGetD d "user" (.obj []) = some u →
      pyDictGetD u "id" (.str "unknown") = some sv →
      pyDictGetD u "email" .null = some ev →
      verifyToken now (.response 200 body) tok
        = some { token := tok, client_id := "ynab-direct", scopes := ["read-only"],
                 expires_at := now + 90 * 60, sub := sv, email := ev, ynab_user_data := u }
      ∧ now < now + 90 * 60)
  ∧ (∀ (now : Nat) (o : VerifyOutcome),
      verifyToken now o "test-token-123"
        = some { token := "test-token-123", client_id := "ynab-test", scopes := ["read-only"],
                 expires_at := now + 90 * 60, sub := .str "test-user-123",
                 email := .str "test@example.com",
                 ynab_user_data := .obj [("id", PyVal.str "test-user-123")] }) := by
  refine ⟨?_, ?_, ?_, ?_⟩
  · intro now tok body s ht hs
    simp [verifyToken, ht, hs]
  · intro now tok m ht
    simp [verifyToken, ht]
  · intro now tok body v d u sv ev ht hj hdd hu hid hem
    refine ⟨?_, by omega⟩
    simp [verifyToken, ht, hj, hdd, hu, hid, hem]
  · intro now o
    simp [verifyToken]

/-- Witness for C5 (amended) at concrete inputs: a 503 response and a raised
timeout both yield invalid for an ordinary token, a well-formed 200 body
yields the credential (with expiry after `now`), and the development token
yields its fixed credential against a failing upstream. -/
theorem C5_amended_witness :
    verifyToken 7 (.response 503 "\x7b\x7d") "tok-1" = none
  ∧ verifyToken 7 (.exceptionRaised "timeout") "tok-1" = none
  ∧ (verifyToken 7 (.response 200 "\x7b\"data\": \x7b\"user\": \x7b\"id\": \"u1\", \"email\": \"e@x\"\x7d\x7d\x7d") "tok-1"
      = some { token := "tok-1", client_id := "ynab-direct", scopes := ["read-only"],
               expires_at := 7 + 90 * 60, sub := .str "u1", email := .str "e@x",
               ynab_user_data := .obj [("id", PyVal.str "u1"), ("email", PyVal.str "e@x")] }
      ∧ 7 < 7 + 90 * 60)
  ∧ verifyToken 7 (.response 404 "nope") "test-token-123"
      = some { token := "test-token-123", client_id := "ynab-test", scopes := ["read-only"],
               expires_at := 7 + 90 * 60, sub := .str "test-user-123",
               email := .str "test@example.com",
               ynab_user_data := .obj [("id", PyVal.str "test-user-123")] } :=
  ⟨C5_amended.1 7 "tok-1" "\x7b\x7d" 503 (by decide) (by decide),
   C5_amended.2.1 7 "tok-1" "timeout" (by decide),
   C5_amended.2.2.1 7 "tok-1" "\x7b\"data\": \x7b\"user\": \x7b\"id\": \"u1\", \"email\": \"e@x\"\x7d\x7d\x7d"
     (PyVal.obj [("data", PyVal.obj [("user", PyVal.obj [("id", PyVal.str "u1"), ("email", PyVal.str "e@x")])])])
     (PyVal.obj [("user", PyVal.obj [("id", PyVal.str "u1"), ("email", PyVal.str "e@x")])])
     (PyVal.obj [("id", PyVal.str "u1"), ("email", PyVal.str "e@x")])
     (PyVal.str "u1") (PyVal.str "e@x") (by decide) rfl rfl rfl rfl rfl,
   C5_amended.2.2.2 7 (.response 404 "nope")⟩

/-- C6: date strings supplied as filters or update fields are validated
against the `YYYY-MM-DD` calendar format before any request: `"2024-13-01"`
and `"not-a-date"` are rejected, `"2024-02-29"` (leap year) is accepted,
and for every invalid non-empty date string, `get_transactions`,
`get_payee_transactions` and `update_transaction` return the distinct
invalid-date error with an empty request trace — no upstream call is
attempted. -/
theorem C6_date_validation :
    isValidYnabDate "2024-13-01" = false
  ∧ isValidYnabDate "not-a-date" = false
  ∧ isValidYnabDate "2024-02-29" = true
  ∧ (∀ (w : World) (b : String) (aid tt : Option String) (lk : Option Int) (s : String),
      s ≠ "" → isValidYnabDate s = false →
      serviceGetTransactions w b aid (some s) tt lk = ([], .error (.invalidDate s)))
  ∧ (∀ (w : World) (b : String) (v : PyVal) (tt : Option String) (lk : Option Int) (s : String),
      s ≠ "" → isValidYnabDate s = false →
      serviceGetPayeeTransactions w b v (some s) tt lk = ([], .error (.invalidDate s)))
  ∧ (∀ (w : World) (b tid : String) (memo : Option String) (amount : Option Int)
      (pid pname cid cl : Option String) (ap : Option Bool) (fc : Option String) (s : String),
      s ≠ "" → isValidYnabDate s = false →
      serviceUpdateTransaction w b tid memo amount pid pname cid cl ap fc (some s)
        = ([], .error (.invalidDate s))) := by
  refine ⟨by decide, by decide, by decide, ?_, ?_, ?_⟩
  · intro w b aid tt lk s hs hv
    simp [serviceGetTransactions, truthyStr_some hs, hv]
  · intro w b v tt lk s hs hv
    simp [serviceGetPayeeTransactions, truthyStr_some hs, hv]
  · intro w b tid memo amount pid pname cid cl ap fc s hs hv
    simp [serviceUpdateTransaction, truthyStr_some hs, hv]

/-- Witness for C6 at the spec's own vectors: `"2024-13-01"` makes both the
transaction query and the update fail invalid-date with no request issued. -/
theorem C6_date_validation_witness :
    serviceGetTransactions (constListWorld []) "b1" none (some "2024-13-01") none none
      = ([], .error (.invalidDate "2024-13-01"))
  ∧ serviceUpdateTransaction (constListWorld []) "b1" "t1" none none none none none none
      none none (some "not-a-date")
      = ([], .error (.invalidDate "not-a-date")) :=
  ⟨C6_date_validation.2.2.2.1 (constListWorld []) "b1" none none none "2024-13-01"
     (by decide) (by decide),
   C6_date_validation.2.2.2.2.2 (constListWorld []) "b1" "t1" none none none none none
     none none none "not-a-date" (by decide) (by decide)⟩

/-- C7: every monetary `_formatted` accessor of every record carrying a
monetary field — `Transaction.amount_formatted`,
`SubTransaction.amount_formatted`, the three balance accessors of `Account`,
and the seven accessors of `Category` (`budgeted`/`activity`/`balance` plus
the four optional goal amounts, which format to `None` exactly when the
milliunit field is `None`) — equals the milliunit field divided by 1000
(floats modelled as rationals), is a derived function of the record
(recomputed on access — the structures store no formatted field), and the
spec's vectors hold: 50000 milliunits format as 50 and -25990 as -25.99. -/
theorem C7_formatted_milliunits :
    (∀ t : Transaction, t.amount_formatted = (t.amount : ℚ) / 1000)
  ∧ (∀ st : SubTransaction, st.amount_formatted = (st.amount : ℚ) / 1000)
  ∧ (∀ a : Account, a.balance_formatted = (a.balance : ℚ) / 1000
      ∧ a.cleared_balance_formatted = (a.cleared_balance : ℚ) / 1000
      ∧ a.uncleared_balance_formatted = (a.uncleared_balance : ℚ) / 1000)
  ∧ (∀ c : Category, c.budgeted_formatted = (c.budgeted : ℚ) / 1000
      ∧ c.activity_formatted = (c.activity : ℚ) / 1000
      ∧ c.balance_formatted = (c.balance : ℚ) / 1000
      ∧ c.goal_target_formatted = c.goal_target.map (fun v => (v : ℚ) / 1000)
      ∧ c.goal_under_funded_formatted = c.goal_under_funded.map (fun v => (v : ℚ) / 1000)
      ∧ c.goal_overall_funded_formatted = c.goal_overall_funded.map (fun v => (v : ℚ) / 1000)
      ∧ c.goal_overall_left_formatted = c.goal_overall_left.map (fun v => (v : ℚ) / 1000))
  ∧ (sampleTransaction 50000).amount_formatted = 50
  ∧ (sampleTransaction (-25990)).amount_formatted = -2599 / 100 := by
  refine ⟨fun t => rfl, fun st => rfl, fun a => ⟨rfl, rfl, rfl⟩,
    fun c => ⟨rfl, rfl, rfl, ?_, ?_, ?_, ?_⟩, ?_, ?_⟩
  · cases h : c.goal_target <;> simp [Category.goal_target_formatted, h]
  · cases h : c.goal_under_funded <;> simp [Category.goal_under_funded_formatted, h]
  · cases h : c.goal_overall_funded <;> simp [Category.goal_overall_funded_formatted, h]
  · cases h : c.goal_overall_left <;> simp [Category.goal_overall_left_formatted, h]
  · norm_num [Transaction.amount_formatted, sampleTransaction]
  · norm_num [Transaction.amount_formatted, sampleTransaction]

/-- C8: the empty-memo classifier counts a memo as empty exactly when it is
absent or strips to the empty string (the spec's vectors: `None` and a
whitespace-only memo are empty, `"ok"` is not), and the filter runs
client-side: in the no-filter branch the tool issues its single unscoped
request with no memo-related parameter and filters the returned set in
memory with the classifier. -/
theorem C8_empty_memo_classifier :
    isMemoEmpty none = true
  ∧ isMemoEmpty (some "   ") = true
  ∧ isMemoEmpty (some "ok") = false
  ∧ (∀ s, isMemoEmpty (some s) = (pyStrip s == ""))
  ∧ (∀ (w : World) (tok b : String) (L : List TransactionDetail),
      w.fetch (ApiRequest.budgetTransactions b (mkQueryParams none none none))
        = .ok (.txList L) →
      getTransactionsTool w (some tok) b none none none none none (some true)
        = ([ApiRequest.budgetTransactions b (mkQueryParams none none none)],
           .ok { transactions := L.filter (fun t => isMemoEmpty t.memo),
                 count := (L.filter (fun t => isMemoEmpty t.memo)).length,
                 budget_id := b, account_id := none, payee_id := none,
                 category_id := none, empty_memo := some true, filtered_by := none })) := by
  refine ⟨by decide, by decide, by decide, fun s => rfl, ?_⟩
  intro w tok b L hL
  have hs := serviceGetTransactions_budget_ok w b none none none L
    (by simp [truthyStr_none]) hL
  simp [getTransactionsTool, truthyStr_none, truthyPayee, coercePayeeParam, hs, applyMemoFilter]

/-- Witness for C8 at a concrete input: of a `None`-memo, a whitespace-memo
and an `"ok"`-memo transaction, the empty-memo query keeps exactly the first
two. -/
theorem C8_empty_memo_classifier_witness :
    getTransactionsTool
        (constListWorld
          [sampleDetail none none, sampleDetail (some "   ") none, sampleDetail (some "ok") none])
        (some "t") "b1" none none none none none (some true)
      = ([ApiRequest.budgetTransactions "b1" (mkQueryParams none none none)],
         .ok { transactions := [sampleDetail none none, sampleDetail (some "   ") none],
               count := 2, budget_id := "b1", account_id := none, payee_id := none,
               category_id := none, empty_memo := some true, filtered_by := none }) :=
  C8_empty_memo_classifier.2.2.2.2
    (constListWorld
      [sampleDetail none none, sampleDetail (some "   ") none, sampleDetail (some "ok") none])
    "t" "b1"
    [sampleDetail none none, sampleDetail (some "   ") none, sampleDetail (some "ok") none] rfl

/-- C9: an update supplying only `memo` sends a payload whose single key is
`memo`, in exactly one PUT request; against the echoing stub upstream the
returned record is the stored transaction with only its memo changed (every
other field syntactically unchanged), and it is a freshly constructed record
from the response — the service never mutates its input (it holds none: the
embedding is a pure function of the stored state). -/
theorem C9_memo_only_update_roundtrip (t0 : TransactionDetail) (b tid m : String) :
    serviceUpdateTransaction (echoWorld t0) b tid (some m) none none none none none none
        none none
      = ([ApiRequest.putTransaction b tid (memoOnlyPayload m)], .ok { t0 with memo := some m })
  ∧ (memoOnlyPayload m).fields = ["memo"] := by
  constructor
  · simp [serviceUpdateTransaction, truthyStr_none, makeRequest, echoWorld, memoOnlyPayload,
      applyPatch]
  · simp [memoOnlyPayload, UpdatePayload.fields]

/-- C10: the undocumented coercion of the `payee_id` string parameter: a
truthy string whose stripped form starts with `[` is fed through
`json.loads` and, when that yields a list, the list becomes the payee-id
list; when the parse fails the original string is kept as a single payee
id; a string not starting with `[` (after stripping) is always a single
payee id. -/
theorem C10_payee_json_coercion :
    (∀ (s : String) (l : List PyVal), s ≠ "" → stripStartsWithBracket s = true →
      jsonLoads s = some (.arr l) → coercePayeeParam (some (.str s)) = some (.list l))
  ∧ (∀ s : String, jsonLoads s = none → coercePayeeParam (some (.str s)) = some (.str s))
  ∧ (∀ s : String, stripStartsWithBracket s = false →
      coercePayeeParam (some (.str s)) = some (.str s)) := by
  refine ⟨?_, ?_, ?_⟩
  · intro s l hs hb hj
    simp [coercePayeeParam, hs, hb, hj]
  · intro s hj
    by_cases hs : s = ""
    · simp [coercePayeeParam, hs]
    · simp [coercePayeeParam, hs, hj]
  · intro s hb
    simp [coercePayeeParam, hb]

/-- Witness for C10 at concrete inputs: a JSON-array string (with leading
whitespace) becomes a two-element payee list, an unparseable bracketed
string stays a single id, and a plain id stays a single id. -/
theorem C10_payee_json_coercion_witness :
    coercePayeeParam (some (.str " [\"pay-1\", \"pay-2\"]"))
      = some (.list [.str "pay-1", .str "pay-2"])
  ∧ coercePayeeParam (some (.str "[broken")) = some (.str "[broken")
  ∧ coercePayeeParam (some (.str "payee-7")) = some (.str "payee-7") :=
  ⟨C10_payee_json_coercion.1 " [\"pay-1\", \"pay-2\"]" [.str "pay-1", .str "pay-2"]
     (by decide) rfl rfl,
   C10_payee_json_coercion.2.1 "[broken" rfl,
   C10_payee_json_coercion.2.2 "payee-7" rfl⟩

end YnabMCP
